import Mathlib

/-!
Shallow embedding of `keybase/keybase.py` (python client for the keybase.io
directory service).  Python dictionaries coming from JSON responses are
modelled by the `Json` type below; Python exceptions are modelled by the
`KbError` type, and fallible code returns `Except KbError _`.  The external
collaborators (HTTP service, GnuPG engine, crypto libraries, the file
system) are modelled as explicit environment records whose fields supply the
collaborator's observable answers.  String primitives are implemented over
`List Char` so that every definition evaluates in the kernel.
-/

set_option linter.unusedVariables false

/-- A JSON value as decoded by `requests.Response.json()`. -/
inductive Json where
  | null : Json
  | bool (b : Bool) : Json
  | str (s : String) : Json
  | int (n : Int) : Json
  | obj (fields : List (String × Json)) : Json
  | arr (elems : List Json) : Json

/-- Python exceptions raised by the module, one constructor per exception
class (plus the builtin exceptions the code can raise). -/
inductive KbError where
  | keybaseError (msg : String) : KbError
  | invalidIdType : KbError
  | unboundInstance (msg : String) : KbError
  | userNotFound (msg : String) : KbError
  | lookupInvalid (msg : String) : KbError
  | publicKeyError (msg : String) : KbError
  | publicKeyVerifyError (msg : String) : KbError
  | publicKeyEncryptError (msg : String) : KbError
  | typeError (msg : String) : KbError
  | valueError (msg : String) : KbError
  | keyError (key : String) : KbError
  | assertionError (msg : String) : KbError
  | attributeError (msg : String) : KbError
  | ioError (msg : String) : KbError
  deriving DecidableEq, Repr

/-- Python truthiness of a JSON value (`if x:`). -/
def jTruthy : Json → Bool
  | .null => false
  | .bool b => b
  | .str s => s ≠ ""
  | .int n => n ≠ 0
  | .obj fs => !fs.isEmpty
  | .arr es => !es.isEmpty

/-- Python truthiness of an optional string attribute (None and the empty
string are falsy). -/
def optStrTruthy : Option String → Bool
  | none => false
  | some s => s ≠ ""

/-- Does the first char list start with the second one. -/
def charsStartWith : List Char → List Char → Bool
  | _, [] => true
  | [], _ :: _ => false
  | c :: cs, d :: ds => c = d && charsStartWith cs ds

/-- Python `s.startswith(pat)`. -/
def pyStartsWith (s pat : String) : Bool := charsStartWith s.data pat.data

/-- Python `s.endswith(pat)`. -/
def pyEndsWith (s pat : String) : Bool :=
  charsStartWith s.data.reverse pat.data.reverse

/-- Does the char list contain the second one as a contiguous run. -/
def charsContain (hay needle : List Char) : Bool :=
  match hay with
  | [] => needle.isEmpty
  | _ :: tl => charsStartWith hay needle || charsContain tl needle

/-- Substring test, as Python `needle in haystack` for strings. -/
def strContains (hay needle : String) : Bool := charsContain hay.data needle.data

/-- Split a char list on a separator char, Python `str.split(sep)` style
(the empty list splits to one empty part). -/
def splitChars (sep : Char) : List Char → List (List Char)
  | [] => [[]]
  | c :: cs =>
    let rest := splitChars sep cs
    if c = sep then [] :: rest
    else
      match rest with
      | [] => [[c]]
      | r :: rs => (c :: r) :: rs

/-- Python `s.split(sep)` for a one-char separator (`os.pathsep`). -/
def pySplitChar (s : String) (sep : Char) : List String :=
  (splitChars sep s.data).map String.mk

/-- Python string equality against a JSON value. -/
def jEqStr (j : Json) (s : String) : Bool :=
  match j with
  | .str t => t = s
  | _ => false

/-- Python `key in value` for a decoded JSON value: key lookup on dicts,
substring test on strings, element equality on lists, `TypeError` on the
non-iterable scalars. -/
def pyIn (key : String) (j : Json) : Except KbError Bool :=
  match j with
  | .obj fs => .ok (fs.lookup key).isSome
  | .str s => .ok (strContains s key)
  | .arr es => .ok (es.any (fun e => jEqStr e key))
  | _ => .error (.typeError "argument is not iterable")

/-- Python `value[key]` for a decoded JSON value: `KeyError` for a missing
dict key, `TypeError` when the value is not a dict. -/
def jIndex (j : Json) (key : String) : Except KbError Json :=
  match j with
  | .obj fs =>
    match fs.lookup key with
    | some v => .ok v
    | none => .error (.keyError key)
  | .str _ => .error (.typeError "string indices must be integers")
  | .arr _ => .error (.typeError "list indices must be integers")
  | _ => .error (.typeError "value is not subscriptable")

/-- Python `value.keys()`: only dicts have it. -/
def jKeys : Json → Except KbError (List String)
  | .obj fs => .ok (fs.map Prod.fst)
  | _ => .error (.attributeError "value has no attribute keys")

/-- ASCII lowercasing, as Python `str.lower` on the ASCII strings (hex
fingerprints) this module compares. -/
def pyLower (s : String) : String := String.mk (s.data.map Char.toLower)

/-- Python `str.format` of an optional string (`None` prints as None). -/
def pyStrOpt : Option String → String
  | none => "None"
  | some s => s

/-- Lexicographic comparison of char lists by code point, as Python string
comparison. -/
def charsLe : List Char → List Char → Bool
  | [], _ => true
  | _ :: _, [] => false
  | c :: cs, d :: ds =>
    if c.toNat < d.toNat then true
    else if c.toNat = d.toNat then charsLe cs ds
    else false

/-- Python `<=` on strings. -/
def pyStrLe (a b : String) : Bool := charsLe a.data b.data

/-- Insert a string into an already sorted list. -/
def insertSorted (s : String) : List String → List String
  | [] => [s]
  | t :: ts => if pyStrLe s t then s :: t :: ts else t :: insertSorted s ts

/-- Python `sorted` on a list of strings. -/
def pySorted (l : List String) : List String := l.foldr insertSorted []

/-- Python slice `s[a:b]` (used by `login` as `[192:224]`). -/
def pySlice (s : String) (a b : Nat) : String :=
  String.mk ((s.data.drop a).take (b - a))

/-- Embedding of `_build_url`: prepend the API base and version, add a
leading slash and a `.json` suffix when missing. -/
def buildUrl (endpoint : String) : Except KbError String :=
  if endpoint.length < 1 then
    .error (.keybaseError "Missing URL endpoint for API call")
  else
    let e1 := if ¬ pyStartsWith endpoint "/" then "/" ++ endpoint else endpoint
    let e2 := if ¬ pyEndsWith e1 ".json" then e1 ++ ".json" else e1
    .ok ("https://keybase.io/_/api/" ++ "1.0" ++ e2)

deriving instance DecidableEq for Except

example : buildUrl "foo" = .ok "https://keybase.io/_/api/1.0/foo.json" := by decide
example : buildUrl "/foo/bar.json" = .ok "https://keybase.io/_/api/1.0/foo/bar.json" := by decide
example : pySorted ["families", "subkeys", "primary", "sibkeys"] =
    ["families", "primary", "sibkeys", "subkeys"] := by decide

/-- Python `int(value)` on a decoded JSON value (digits with an optional
sign for strings, identity on ints, 0 or 1 on bools). -/
def digitVal? (c : Char) : Option Nat :=
  if 48 ≤ c.toNat ∧ c.toNat ≤ 57 then some (c.toNat - 48) else none

/-- Parse an unsigned run of decimal digits. -/
def charsNat? : List Char → Option Nat
  | [] => none
  | cs => cs.foldl (fun acc c =>
      match acc, digitVal? c with
      | some n, some d => some (n * 10 + d)
      | _, _ => none) (some 0)

/-- Python `int` applied to a string. -/
def pyIntOfStr? (s : String) : Option Int :=
  match s.data with
  | '-' :: rest => (charsNat? rest).map (fun n => -(n : Int))
  | '+' :: rest => (charsNat? rest).map (fun n => (n : Int))
  | cs => (charsNat? cs).map (fun n => (n : Int))

/-- Python `int(value)` for a JSON value, raising like CPython does. -/
def pyInt (j : Json) : Except KbError Int :=
  match j with
  | .int n => .ok n
  | .bool b => .ok (if b then 1 else 0)
  | .str s =>
    match pyIntOfStr? s with
    | some n => .ok n
    | none => .error (.valueError "invalid literal for int with base 10")
  | _ => .error (.typeError "int argument must be a string or a number")

/-- A value stored in `KeybasePublicKey.__data`: either the JSON value
copied verbatim from the directory response, or the `datetime` produced
from the `mtime` and `ctime` timestamps. -/
inductive PkVal where
  | j (v : Json) : PkVal
  | time (t : Int) : PkVal

/-- Observable answers of the local GnuPG engine: `--list-config` output
per config name (as parsed by `__get_gpg_config`), and the fingerprints the
engine reports when importing a bundle. -/
structure GpgEnv where
  config : String → List String
  importFingerprints : PkVal → List String

/-- The `KeybasePublicKey` object after a completed `__init__`. -/
structure KeybasePublicKey where
  data : List (String × PkVal)
  cipherAlgos : List String
  digestAlgos : List String
  compressAlgos : List String
  gpg : Option Unit

/-- Embedding of `KeybasePublicKey.__property_getter`: the value from
`__data`, or None when absent. -/
def KeybasePublicKey.propertyGetter (pk : KeybasePublicKey) (prop : String) :
    Option PkVal :=
  pk.data.lookup prop

/-- Python truthiness of an optional `__data` value. -/
def pkValTruthy : Option PkVal → Bool
  | none => false
  | some (.j v) => jTruthy v
  | some (.time _) => true

/-- Embedding of the `key_fingerprint` property: `.lower()` of the stored
value; `AttributeError` when the value is absent or not a string. -/
def keyFingerprintOf (data : List (String × PkVal)) : Except KbError String :=
  match data.lookup "key_fingerprint" with
  | some (.j (.str s)) => .ok (pyLower s)
  | some _ => .error (.attributeError "value has no attribute lower")
  | none => .error (.attributeError "NoneType has no attribute lower")

/-- The `key_fingerprint` property on a constructed key record. -/
def KeybasePublicKey.keyFingerprint (pk : KeybasePublicKey) :
    Except KbError String :=
  keyFingerprintOf pk.data

/-- The message of the fingerprint-mismatch `KeybasePublicKeyError`. -/
def fingerprintMismatchMsg : String :=
  "A serious security error has occured: fingerprint mismatch on key import"

/-- The message of the missing-bundle `KeybasePublicKeyError`. -/
def missingBundleMsg : String := "Missing PGP key bundle in init data"

/-- Embedding of the import check loop in `KeybasePublicKey.__init__`: for
every fingerprint the engine reported, compare its lowercase form with the
`key_fingerprint` property and raise on the first mismatch.  The property
itself is only evaluated inside the loop body, so an empty fingerprint list
checks nothing. -/
def checkFprints (kfE : Except KbError String) :
    List String → Except KbError Unit
  | [] => .ok ()
  | fp :: rest =>
    match kfE with
    | .error e => .error e
    | .ok kf =>
      if pyLower fp ≠ kf then .error (.publicKeyError fingerprintMismatchMsg)
      else checkFprints kfE rest

/-- Embedding of the `__data` construction loop in
`KeybasePublicKey.__init__`: `mtime` and `ctime` values pass through
`datetime.datetime.fromtimestamp(int(value))`, every other value is copied
verbatim. -/
def convertVal (key : String) (v : Json) : Except KbError PkVal :=
  if key = "mtime" ∨ key = "ctime" then
    match pyInt v with
    | .error e => .error e
    | .ok n => .ok (.time n)
  else .ok (.j v)

/-- The `__data` construction loop over all keyword arguments. -/
def convertData : List (String × Json) → Except KbError (List (String × PkVal))
  | [] => .ok []
  | (k, v) :: rest =>
    match convertVal k v with
    | .error e => .error e
    | .ok pv =>
      match convertData rest with
      | .error e => .error e
      | .ok tl => .ok ((k, pv) :: tl)

/-- Embedding of `KeybasePublicKey.__init__`: build `__data`, query the
engine configuration for cipher and digest names, fix the compression list,
then, when the bundle attribute is truthy, import it into the fresh keyring
and check every reported fingerprint; a falsy or absent bundle raises the
missing-bundle error.  (`__gpg` is always truthy on the import path, so the
final `if not self.__gpg` check never fires there.) -/
def mkKeybasePublicKey (env : GpgEnv) (kwargs : List (String × Json)) :
    Except KbError KeybasePublicKey :=
  match convertData kwargs with
  | .error e => .error e
  | .ok data =>
    match data.lookup "bundle" with
    | some bv =>
      if pkValTruthy (some bv) then
        match checkFprints (keyFingerprintOf data)
            (env.importFingerprints bv) with
        | .error e => .error e
        | .ok _ =>
          .ok ⟨data, env.config "ciphername", env.config "digestname",
            ["ZLIB", "BZIP2", "ZIP", "Uncompressed"], some ()⟩
      else .error (.publicKeyError missingBundleMsg)
    | none => .error (.publicKeyError missingBundleMsg)

/-- Embedding of `KeybasePublicKey.verify`: the engine's verdict on the
signed data, with `throw_error` turning a failure into
`KeybasePublicKeyVerifyError` carrying the engine status. -/
def KeybasePublicKey.verify (pk : KeybasePublicKey) (engineValid : Bool)
    (engineStatus : String) (data : String) (throwErr : Bool) :
    Except KbError Bool :=
  if engineValid then .ok true
  else if throwErr then .error (.publicKeyVerifyError engineStatus)
  else .ok false

/-- Embedding of `KeybasePublicKey.verify_file`: open the file (an
unreadable file raises an IOError), then behave as `verify`. -/
def KeybasePublicKey.verifyFile (pk : KeybasePublicKey) (fileOk : Bool)
    (engineValid : Bool) (engineStatus : String) (fname : String)
    (sigfname : Option String) (throwErr : Bool) : Except KbError Bool :=
  if ¬ fileOk then .error (.ioError "No such file or directory")
  else if engineValid then .ok true
  else if throwErr then .error (.publicKeyVerifyError engineStatus)
  else .ok false

/-- The keyword arguments handed to `gnupg.GPG.encrypt` when the engine is
finally invoked by `KeybasePublicKey.encrypt`. -/
structure EngineCallArgs where
  data : String
  keyid : String
  cipherAlgo : Option String
  digestAlgo : Option String
  compressAlgo : String
  armor : Bool
  encrypt : Bool
  symmetric : Bool
  alwaysTrust : Bool
  deriving DecidableEq, Repr

/-- The value `KeybasePublicKey.encrypt` returns: armored ASCII text when
`armor` is true, the engine's native crypt object otherwise. -/
inductive EncResult where
  | armored (s : String) : EncResult
  | cryptObj (s : String) : EncResult
  deriving DecidableEq, Repr

/-- Outcome of one `KeybasePublicKey.encrypt` call: the returned value or
the raised error, plus the engine invocation (None when the engine was
never called). -/
structure EncryptOutcome where
  result : Except KbError EncResult
  engineCall : Option EngineCallArgs
  deriving DecidableEq, Repr

/-- One supplied-algorithm check of the validation prefix of
`KeybasePublicKey.encrypt`: a supplied (truthy) name is checked against
the record's stored list and an unrecognized name raises
`KeybasePublicKeyEncryptError`; a skipped supply passes through. -/
def algoCheck (kind : String) (supported : List String)
    (supplied : Option String) : Except KbError (Option String) :=
  if optStrTruthy supplied then
    let v := supplied.getD ""
    if v ∈ supported then .ok (some v)
    else .error (.publicKeyEncryptError
      (kind ++ " algorithm " ++ v ++ " unrecognized"))
  else .ok none

/-- The `compress_algo` branch of the validation prefix: same check, but a
skipped supply still sets the ZIP default. -/
def compressCheck (supported : List String) (supplied : Option String) :
    Except KbError String :=
  if optStrTruthy supplied then
    let v := supplied.getD ""
    if v ∈ supported then .ok v
    else .error (.publicKeyEncryptError
      ("compression algorithm " ++ v ++ " unrecognized"))
  else .ok "ZIP"

/-- The three validation steps of `KeybasePublicKey.encrypt` in source
order: cipher, digest, compression. -/
def checkAlgos (pk : KeybasePublicKey) (cipherAlgo digestAlgo compressAlgo :
    Option String) :
    Except KbError (Option String × Option String × String) :=
  match algoCheck "cipher" pk.cipherAlgos cipherAlgo with
  | .error e => .error e
  | .ok kwCv =>
    match algoCheck "digest" pk.digestAlgos digestAlgo with
    | .error e => .error e
    | .ok kwDv =>
      match compressCheck pk.compressAlgos compressAlgo with
      | .error e => .error e
      | .ok kwCompv => .ok (kwCv, kwDv, kwCompv)

/-- Embedding of `KeybasePublicKey.encrypt`: validate the supplied
algorithm names, then call the engine with the bound key as sole trusted
recipient; an engine call that reports no output raises
`KeybasePublicKeyEncryptError`.  `keyid` is the keyring's first key id and
`engineOutput` the ciphertext the engine reports (empty for no output). -/
def KeybasePublicKey.encrypt (pk : KeybasePublicKey) (keyid : String)
    (engineOutput : String) (data : String) (armor : Bool)
    (cipherAlgo digestAlgo compressAlgo : Option String) : EncryptOutcome :=
  match checkAlgos pk cipherAlgo digestAlgo compressAlgo with
  | .error e => ⟨.error e, none⟩
  | .ok (kwC, kwD, kwComp) =>
    let args : EngineCallArgs :=
      ⟨data, keyid, kwC, kwD, kwComp, armor, true, false, true⟩
    if engineOutput ≠ "" then
      ⟨.ok (if armor then .armored engineOutput else .cryptObj engineOutput),
        some args⟩
    else ⟨.error (.publicKeyEncryptError "unable to encrypt data"), some args⟩

/-- The mutable fields of a `Keybase` client instance (`_username`,
`_user_object`, `__lookup_performed`). -/
structure KeybaseState where
  username : Option String
  userObject : Option Json
  lookupPerformed : Bool

/-- The state `Keybase.__init__` starts from before `__lookup` runs. -/
def initState : KeybaseState := ⟨none, none, false⟩

/-- Embedding of the `is_bound` property: username, user object and the
lookup flag must all be truthy. -/
def isBound (st : KeybaseState) : Bool :=
  optStrTruthy st.username &&
    (match st.userObject with
     | some j => jTruthy j
     | none => false) &&
    st.lookupPerformed

/-- Embedding of `Keybase._section_getter`: the value stored under
`section` and `key` in the user object, None when anything along the path
is absent; propagates the Python errors arbitrary JSON shapes can raise. -/
def sectionGetter (st : KeybaseState) (sect key : String) :
    Except KbError (Option Json) :=
  match st.userObject with
  | none => .ok none
  | some uo =>
    if jTruthy uo then
      match pyIn sect uo with
      | .error e => .error e
      | .ok hs =>
        if hs then
          match jIndex uo sect with
          | .error e => .error e
          | .ok sv =>
            match pyIn key sv with
            | .error e => .error e
            | .ok hk =>
              if hk then
                match jIndex sv key with
                | .error e => .error e
                | .ok v => .ok (some v)
              else .ok none
        else .ok none
    else .ok none

/-- The `name` property of a client. -/
def Keybase.name (st : KeybaseState) : Except KbError (Option Json) :=
  sectionGetter st "profile" "full_name"

/-- The `location` property of a client. -/
def Keybase.location (st : KeybaseState) : Except KbError (Option Json) :=
  sectionGetter st "profile" "location"

/-- Embedding of the `public_keys` property: the sorted key names of the
`public_keys` section, empty for an absent or falsy user object. -/
def publicKeysOf (st : KeybaseState) : Except KbError (List String) :=
  let pkeysE : Except KbError (List String) :=
    match st.userObject with
    | none => .ok []
    | some uo =>
      if jTruthy uo then
        match pyIn "public_keys" uo with
        | .error e => .error e
        | .ok hk =>
          if hk then
            match jIndex uo "public_keys" with
            | .error e => .error e
            | .ok v => jKeys v
          else .ok []
      else .ok []
  match pkeysE with
  | .error e => .error e
  | .ok pkeys => .ok (pySorted pkeys)

/-- Embedding of `Keybase.get_public_key`: raise
`KeybaseUnboundInstanceError` on an unbound instance, return None for an
unknown key name, otherwise construct the `KeybasePublicKey` from the
stored attribute map. -/
def getPublicKey (st : KeybaseState) (env : GpgEnv) (keyname : String) :
    Except KbError (Option KeybasePublicKey) :=
  if ¬ isBound st then
    .error (.unboundInstance "Unable to fetch public key")
  else
    match publicKeysOf st with
    | .error e => .error e
    | .ok pkeys =>
      if keyname ∈ pkeys then
        let uo := st.userObject.getD .null
        match jIndex uo "public_keys" with
        | .error e => .error e
        | .ok pkSection =>
          match jIndex pkSection keyname with
          | .error e => .error e
          | .ok keyData =>
            match keyData with
            | .obj fields =>
              match mkKeybasePublicKey env fields with
              | .error e => .error e
              | .ok pk => .ok (some pk)
            | _ => .error (.typeError "argument of type is not a mapping")
      else .ok none

/-- Embedding of the convenience `Keybase.verify`: unbound check, fetch the
primary key, delegate. -/
def Keybase.verify (st : KeybaseState) (env : GpgEnv) (engineValid : Bool)
    (engineStatus : String) (data : String) (throwErr : Bool) :
    Except KbError Bool :=
  if ¬ isBound st then
    .error (.unboundInstance "Unable to fetch public key")
  else
    match getPublicKey st env "primary" with
    | .error e => .error e
    | .ok none => .error (.attributeError "NoneType has no attribute verify")
    | .ok (some pk) => pk.verify engineValid engineStatus data throwErr

/-- Embedding of the convenience `Keybase.verify_file`. -/
def Keybase.verifyFile (st : KeybaseState) (env : GpgEnv) (fileOk : Bool)
    (engineValid : Bool) (engineStatus : String) (fname : String)
    (sigfname : Option String) (throwErr : Bool) : Except KbError Bool :=
  if ¬ isBound st then
    .error (.unboundInstance "Unable to fetch public key")
  else
    match getPublicKey st env "primary" with
    | .error e => .error e
    | .ok none =>
      .error (.attributeError "NoneType has no attribute verify_file")
    | .ok (some pk) =>
      pk.verifyFile fileOk engineValid engineStatus fname sigfname throwErr

/-- Embedding of the convenience `Keybase.encrypt`. -/
def Keybase.encrypt (st : KeybaseState) (env : GpgEnv) (keyid : String)
    (engineOutput : String) (data : String) (armor : Bool)
    (cipherAlgo digestAlgo compressAlgo : Option String) :
    Except KbError EncResult :=
  if ¬ isBound st then
    .error (.unboundInstance "Unable to fetch public key")
  else
    match getPublicKey st env "primary" with
    | .error e => .error e
    | .ok none => .error (.attributeError "NoneType has no attribute encrypt")
    | .ok (some pk) =>
      (pk.encrypt keyid engineOutput data armor
        cipherAlgo digestAlgo compressAlgo).result

/-- Outcome of one `Keybase.__lookup` call: the instance state afterwards,
the raised error if any, and whether the directory query was issued. -/
structure LookupOutcome where
  newState : KeybaseState
  error : Option KbError
  queried : Bool

/-- The malformed-response message of `__lookup`. -/
def malformedLookupMsg : String :=
  "Malformed API response to user/lookup.json request"

/-- The shape checks and binding of `Keybase.__lookup` once the directory
response is in hand, mirroring the source line by line: status section
present with a name, not-found statuses, the `them` section, then the three
assignments that bind the instance. -/
def lookupBody (username : String) (resp : Json) :
    Except KbError KeybaseState :=
  match pyIn "status" resp with
  | .error e => .error e
  | .ok hs =>
    if ¬ hs then .error (.keybaseError malformedLookupMsg)
    else
      match jIndex resp "status" with
      | .error e => .error e
      | .ok sv =>
        match pyIn "name" sv with
        | .error e => .error e
        | .ok hn =>
          if ¬ hn then .error (.keybaseError malformedLookupMsg)
          else
            match jIndex resp "status" with
            | .error e => .error e
            | .ok sv2 =>
              match jIndex sv2 "name" with
              | .error e => .error e
              | .ok nm =>
                if jEqStr nm "NOT_FOUND" || jEqStr nm "INPUT_ERROR" then
                  .error (.userNotFound ("User " ++ username ++ " not found"))
                else
                  match pyIn "them" resp with
                  | .error e => .error e
                  | .ok ht =>
                    if ¬ ht then .error (.keybaseError malformedLookupMsg)
                    else
                      match jIndex resp "them" with
                      | .error e => .error e
                      | .ok them => .ok ⟨some username, some them, true⟩

/-- Embedding of `Keybase.__lookup`: an instance that has already performed
a lookup refuses with `KeybaseLookupInvalidError` before the query is
issued; otherwise the query runs and the response is checked and bound.
Raising leaves every field as it was. -/
def lookupStep (st : KeybaseState) (username : String) (resp : Json) :
    LookupOutcome :=
  if st.lookupPerformed then
    ⟨st, some (.lookupInvalid
      ("Keybase object already bound to username " ++ pyStrOpt st.username)),
      false⟩
  else
    match lookupBody username resp with
    | .error e => ⟨st, some e, true⟩
    | .ok st2 => ⟨st2, none, true⟩

/-- The mutable fields a `KeybaseAdmin` instance adds to the client
(`__salt`, `__session_cookie`, `__user_object`, all name-mangled and
initially None). -/
structure AdminState where
  base : KeybaseState
  salt : Option Json
  sessionCookie : Option Json
  userObjectAdmin : Option Json

/-- Outcome of one `KeybaseAdmin._get_salt` call. -/
structure GetSaltOutcome where
  newState : AdminState
  result : Except KbError Json
  queried : Bool

/-- The response checks and salt store of `_get_salt`: both the `salt` and
`login_session` fields must be present, then the salt is stored and the
login session returned. -/
def getSaltBody (st : AdminState) (resp : Json) :
    Except KbError (AdminState × Json) :=
  match pyIn "salt" resp with
  | .error e => .error e
  | .ok hs =>
    if ¬ hs then
      .error (.keybaseError ("_get_salt(): No salt value returned for login "
        ++ pyStrOpt st.base.username))
    else
      match pyIn "login_session" resp with
      | .error e => .error e
      | .ok hl =>
        if ¬ hl then
          .error (.keybaseError
            ("_get_salt(): No login_session value returned for login "
              ++ pyStrOpt st.base.username))
        else
          match jIndex resp "salt" with
          | .error e => .error e
          | .ok saltv =>
            match jIndex resp "login_session" with
            | .error e => .error e
            | .ok ls => .ok ({ st with salt := some saltv }, ls)

/-- Embedding of `KeybaseAdmin._get_salt`: refuse with
`KeybaseUnboundInstanceError` before any request when unbound, otherwise
issue the request and check and store the response. -/
def getSalt (st : AdminState) (resp : Json) : GetSaltOutcome :=
  if ¬ isBound st.base then
    ⟨st, .error (.unboundInstance "Unable to retrieve salt from keybase.io"),
      false⟩
  else
    match getSaltBody st resp with
    | .error e => ⟨st, .error e, true⟩
    | .ok (st2, ls) => ⟨st2, .ok ls, true⟩

/-- Observable answers of the crypto collaborators used by `login`:
`binascii.unhexlify` and `base64.b64decode` (None on undecodable input),
`scrypt.hash` with the fixed work factors of the source, and the
hex-encoded SHA-512 HMAC digest. -/
structure CryptoEnv where
  unhexlify : String → Option String
  b64decode : String → Option String
  scryptHash : String → String → String
  hmacHex : String → String → String

/-- The payload `login` posts to the login endpoint. -/
structure LoginPayload where
  emailOrUsername : Option String
  hmacPwh : String
  loginSession : Json

/-- Outcome of one `KeybaseAdmin.login` call: final state, return value or
raised error, and the round-2 POST with its url and payload (None when the
POST never happened). -/
structure LoginOutcome where
  newState : AdminState
  result : Except KbError Bool
  postedUrl : Option String
  postedPayload : Option LoginPayload

/-- Python `binascii.unhexlify(self.__salt)`: the stored salt must be a
string of hex digits. -/
def unhexSalt (cenv : CryptoEnv) : Option Json → Except KbError String
  | some (.str s) =>
    match cenv.unhexlify s with
    | some b => .ok b
    | none => .error (.valueError "Non-hexadecimal digit found")
  | _ => .error (.typeError "argument should be a string")

/-- Python `base64.b64decode(login_session)`: the challenge must be a
base64 string. -/
def b64Session (cenv : CryptoEnv) : Json → Except KbError String
  | .str s =>
    match cenv.b64decode s with
    | some b => .ok b
    | none => .error (.valueError "Invalid base64-encoded string")
  | _ => .error (.typeError "argument should be a bytes-like object")

/-- Embedding of `KeybaseAdmin.login`: unbound check, round 1 via
`_get_salt` (which stores the salt), the scrypt password hash sliced to
bytes 192..224, the SHA-512 HMAC of the decoded login session, then the
round-2 POST of (identifier, MAC digest, login session) to the login
endpoint; the full response is stored in the admin user object before the
`session` assertion, and on success the session cookie is stored and True
returned. -/
def login (cenv : CryptoEnv) (st : AdminState) (saltResp loginResp : Json)
    (passphrase : String) : LoginOutcome :=
  if ¬ isBound st.base then
    ⟨st, .error (.unboundInstance "Unable to log in to keybase.io"),
      none, none⟩
  else
    match getSalt st saltResp with
    | ⟨st1, .error e, _⟩ => ⟨st1, .error e, none, none⟩
    | ⟨st1, .ok loginSession, _⟩ =>
      match unhexSalt cenv st1.salt with
      | .error e => ⟨st1, .error e, none, none⟩
      | .ok saltBytes =>
        let pwh := pySlice (cenv.scryptHash passphrase saltBytes) 192 224
        match b64Session cenv loginSession with
        | .error e => ⟨st1, .error e, none, none⟩
        | .ok sessionBytes =>
          let digest := cenv.hmacHex pwh sessionBytes
          match buildUrl "login.json" with
          | .error e => ⟨st1, .error e, none, none⟩
          | .ok url =>
            let payload : LoginPayload :=
              ⟨st1.base.username, digest, loginSession⟩
            let st2 := { st1 with userObjectAdmin := some loginResp }
            match jIndex loginResp "session" with
            | .error e => ⟨st2, .error e, some url, some payload⟩
            | .ok sess =>
              if ¬ jTruthy sess then
                ⟨st2, .error (.assertionError
                  "Session does not exist in login response"),
                  some url, some payload⟩
              else
                ⟨{ st2 with sessionCookie := some sess }, .ok true,
                  some url, some payload⟩

/-- Observable shape of the host for executable resolution: the `PATHEXT`
and `PATH` variables, the path separator, which paths pass the
`os.access` check, and `os.path.realpath`. -/
structure OsEnv where
  pathext : Option String
  path : Option String
  pathSep : Char
  access : String → Bool
  realpath : String → String

/-- Python `os.path.join` for one component (posix rules). -/
def osJoin (a b : String) : String :=
  if pyStartsWith b "/" then b
  else if a = "" ∨ pyEndsWith a "/" then a ++ b
  else a ++ "/" ++ b

/-- Embedding of `_which`: walk every `PATH` entry; append the joined path
when it passes the access check, and also append it (not the suffixed
variant) when the path extended by a `PATHEXT` suffix passes the check. -/
def which (env : OsEnv) (executable : String) : List String :=
  let exts := (pySplitChar (env.pathext.getD "") env.pathSep).filter (· ≠ "")
  match env.path with
  | none => []
  | some p =>
    (pySplitChar p env.pathSep).foldl (fun result dir =>
      let tpath := osJoin dir executable
      let result1 := if env.access tpath then result ++ [tpath] else result
      exts.foldl (fun r ext =>
        if env.access (tpath ++ ext) then r ++ [tpath] else r) result1) []

/-- Embedding of `gpg()`: search for `gpg2` then `gpg` (or the characters
of a custom binary name, as `list(binary)` does in the source), returning
the real path of the first hit, None when nothing is found. -/
def gpgSearchList : Option String → List String
  | some b => if b ≠ "" then b.data.map (fun c => String.mk [c]) else ["gpg2", "gpg"]
  | none => ["gpg2", "gpg"]

/-- The search loop of `gpg()`. -/
def gpgLoop (env : OsEnv) : List String → Option String
  | [] => none
  | g :: rest =>
    match which env g with
    | [] => gpgLoop env rest
    | m :: _ => some (env.realpath m)

/-- Embedding of `gpg(binary=None)`. -/
def gpg (env : OsEnv) (binary : Option String) : Option String :=
  gpgLoop env (gpgSearchList binary)

/-- The states a `Keybase` client instance can be in: the initial state of
`__init__` and everything `__lookup` can produce from a reachable state. -/
inductive Reachable : KeybaseState → Prop where
  | init : Reachable initState
  | step (st : KeybaseState) (u : String) (r : Json) (h : Reachable st) :
      Reachable (lookupStep st u r).newState

/-- A successful `__lookup` always sets the lookup flag. -/
theorem lookupBody_ok_performed (u : String) (r : Json) (st2 : KeybaseState)
    (h : lookupBody u r = .ok st2) : st2.lookupPerformed = true := by
  unfold lookupBody at h
  repeat' split at h
  all_goals try exact Except.noConfusion h
  injection h with h1
  rw [← h1]

/-- One `__lookup` call either leaves the state exactly as it was, or
raises nothing and sets the lookup flag. -/
theorem lookupStep_cases (st : KeybaseState) (u : String) (r : Json) :
    (lookupStep st u r).newState = st ∨
    ((lookupStep st u r).newState.lookupPerformed = true ∧
      (lookupStep st u r).error = none) := by
  unfold lookupStep
  split
  · exact Or.inl rfl
  · cases hb : lookupBody u r with
    | error e => exact Or.inl rfl
    | ok st2 => exact Or.inr ⟨lookupBody_ok_performed u r st2 hb, rfl⟩

/-- A `__lookup` call that raises leaves the client fields untouched. -/
theorem lookupStep_raise_atomic (st : KeybaseState) (u : String) (r : Json)
    (e : KbError) (h : (lookupStep st u r).error = some e) :
    (lookupStep st u r).newState = st := by
  rcases lookupStep_cases st u r with heq | ⟨_, herr⟩
  · exact heq
  · rw [herr] at h
    exact Option.noConfusion h

/-- A reachable state whose lookup flag is still clear is the initial
state: `__lookup` either raises without touching the fields or sets the
flag. -/
theorem reachable_unbound_eq_init (st : KeybaseState)
    (h : Reachable st) (hl : st.lookupPerformed = false) : st = initState := by
  induction h with
  | init => rfl
  | step st0 u r h0 ih =>
    rcases lookupStep_cases st0 u r with heq | ⟨hperf, _⟩
    · rw [heq] at hl ⊢
      exact ih hl
    · exact absurd hperf (by simp [hl])

/-- A sample engine environment used by concrete witnesses. -/
def defaultGpgEnv : GpgEnv :=
  ⟨fun c =>
    if c = "ciphername" then ["AES256", "AES"]
    else if c = "digestname" then ["SHA512", "SHA256"]
    else [],
   fun _ => []⟩

/-- A sample bound client state used by concrete witnesses. -/
def boundStateW : KeybaseState :=
  ⟨some "irc",
   some (.obj [("profile",
     .obj [("full_name", .str "Ian Chesal"), ("location", .str "Toronto")])]),
   true⟩

/-- C5: on a client instance that is already bound, a second `__lookup`
call fails with `KeybaseLookupInvalidError` regardless of its argument,
issues no directory query, and leaves every field unchanged. -/
theorem C5_second_lookup_refused (st : KeybaseState) (u : String) (r : Json)
    (h : isBound st = true) :
    lookupStep st u r = ⟨st, some (.lookupInvalid
      ("Keybase object already bound to username " ++ pyStrOpt st.username)),
      false⟩ := by
  have hlp : st.lookupPerformed = true := by
    unfold isBound at h
    cases hsp : st.lookupPerformed with
    | false => rw [hsp] at h; simp at h
    | true => rfl
  unfold lookupStep
  rw [hlp]
  simp

/-- C5 witness: the refusal on a concrete bound instance. -/
theorem C5_second_lookup_refused_witness :
    isBound boundStateW = true ∧
    lookupStep boundStateW "max" (.obj [("status", .obj [("name", .str "OK")])]) =
      ⟨boundStateW, some (.lookupInvalid
        "Keybase object already bound to username irc"), false⟩ :=
  ⟨by decide,
   C5_second_lookup_refused boundStateW "max"
     (.obj [("status", .obj [("name", .str "OK")])]) (by decide)⟩

/-- C6: a client that never performed its lookup (every reachable unbound
state) fails `get_public_key`, `verify`, `verify_file` and `encrypt` with
`KeybaseUnboundInstanceError`, while the profile accessors return None and
the key-name list is empty; none of these raises any other error. -/
theorem C6_unbound_operations (st : KeybaseState)
    (h1 : Reachable st) (h2 : st.lookupPerformed = false) :
    (∀ env keyname, getPublicKey st env keyname =
      .error (.unboundInstance "Unable to fetch public key")) ∧
    (∀ env ev es d t, Keybase.verify st env ev es d t =
      .error (.unboundInstance "Unable to fetch public key")) ∧
    (∀ env fo ev es f sf t, Keybase.verifyFile st env fo ev es f sf t =
      .error (.unboundInstance "Unable to fetch public key")) ∧
    (∀ env kid out d a c dg cp, Keybase.encrypt st env kid out d a c dg cp =
      .error (.unboundInstance "Unable to fetch public key")) ∧
    Keybase.name st = .ok none ∧
    Keybase.location st = .ok none ∧
    publicKeysOf st = .ok [] ∧
    st.username = none := by
  have hst : st = initState := reachable_unbound_eq_init st h1 h2
  subst hst
  exact ⟨fun env keyname => rfl, fun env ev es d t => rfl,
    fun env fo ev es f sf t => rfl, fun env kid out d a c dg cp => rfl,
    rfl, rfl, rfl, rfl⟩

/-- C6 witness: the unbound failures and empty accessors on the concrete
initial state. -/
theorem C6_unbound_operations_witness :
    getPublicKey initState defaultGpgEnv "primary" =
      .error (.unboundInstance "Unable to fetch public key") ∧
    Keybase.verify initState defaultGpgEnv true "" "msg" false =
      .error (.unboundInstance "Unable to fetch public key") ∧
    Keybase.name initState = .ok none ∧
    publicKeysOf initState = .ok [] :=
  ⟨(C6_unbound_operations initState .init rfl).1 defaultGpgEnv "primary",
   (C6_unbound_operations initState .init rfl).2.1 defaultGpgEnv true "" "msg" false,
   (C6_unbound_operations initState .init rfl).2.2.2.2.1,
   (C6_unbound_operations initState .init rfl).2.2.2.2.2.2.1⟩

/-- C7: `_get_salt` on an unbound authenticator fails with
`KeybaseUnboundInstanceError` before any service request; on a bound
authenticator a response carrying both `salt` and `login_session` stores
the salt and yields the login-session token, and a response missing either
field fails with `KeybaseError` leaving the stored salt untouched. -/
theorem C7_salt_retrieval (st : AdminState) (resp : Json)
    (flds : List (String × Json)) (sv ls : Json) :
    (isBound st.base = false →
      getSalt st resp = ⟨st, .error (.unboundInstance
        "Unable to retrieve salt from keybase.io"), false⟩) ∧
    (isBound st.base = true → flds.lookup "salt" = some sv →
      flds.lookup "login_session" = some ls →
      getSalt st (.obj flds) =
        ⟨{ st with salt := some sv }, .ok ls, true⟩) ∧
    (isBound st.base = true →
      (flds.lookup "salt" = none ∨ flds.lookup "login_session" = none) →
      (getSalt st (.obj flds)).newState = st ∧
      ∃ msg, (getSalt st (.obj flds)).result = .error (.keybaseError msg)) := by
  refine ⟨fun hunb => ?_, fun hb hsv hls => ?_, fun hb hmiss => ?_⟩
  · unfold getSalt
    simp [hunb]
  · unfold getSalt getSaltBody pyIn jIndex
    simp [hb, hsv, hls]
  · rcases hmiss with hs | hl
    · unfold getSalt getSaltBody pyIn
      simp [hb, hs]
    · cases hsalt : flds.lookup "salt" with
      | none =>
        unfold getSalt getSaltBody pyIn
        simp [hb, hsalt]
      | some sv2 =>
        unfold getSalt getSaltBody pyIn
        simp [hb, hsalt, hl]

/-- C7 witness: concrete runs of all three branches of `_get_salt`. -/
theorem C7_salt_retrieval_witness :
    (getSalt ⟨initState, none, none, none⟩ (.obj [("salt", .str "aa")]) =
      ⟨⟨initState, none, none, none⟩, .error (.unboundInstance
        "Unable to retrieve salt from keybase.io"), false⟩) ∧
    (getSalt ⟨boundStateW, none, none, none⟩
      (.obj [("salt", .str "5838c199c1b825a069185d5707302693"),
             ("login_session", .str "TOKEN")]) =
      ⟨⟨boundStateW, some (.str "5838c199c1b825a069185d5707302693"), none, none⟩,
        .ok (.str "TOKEN"), true⟩) ∧
    ((getSalt ⟨boundStateW, none, none, none⟩ (.obj [("salt", .str "aa")])).newState =
      ⟨boundStateW, none, none, none⟩ ∧
     ∃ msg, (getSalt ⟨boundStateW, none, none, none⟩
        (.obj [("salt", .str "aa")])).result = .error (.keybaseError msg)) :=
  ⟨(C7_salt_retrieval ⟨initState, none, none, none⟩ (.obj [("salt", .str "aa")])
      [] .null .null).1 rfl,
   (C7_salt_retrieval ⟨boundStateW, none, none, none⟩ .null
      [("salt", .str "5838c199c1b825a069185d5707302693"),
       ("login_session", .str "TOKEN")]
      (.str "5838c199c1b825a069185d5707302693") (.str "TOKEN")).2.1
      (by decide) rfl rfl,
   (C7_salt_retrieval ⟨boundStateW, none, none, none⟩ .null
      [("salt", .str "aa")] .null .null).2.2 (by decide) (Or.inr rfl)⟩

/-- When some reported fingerprint mismatches the (lowercased) declared
fingerprint, the import check loop raises the security error. -/
theorem checkFprints_mismatch (kf : String) (fps : List String) (fp : String)
    (hmem : fp ∈ fps) (hne : pyLower fp ≠ kf) :
    checkFprints (.ok kf) fps =
      .error (.publicKeyError fingerprintMismatchMsg) := by
  induction fps with
  | nil => cases hmem
  | cons hd tl ih =>
    unfold checkFprints
    by_cases hhd : pyLower hd = kf
    · simp only [hhd, ne_eq, not_true_eq_false, if_false, ite_false]
      cases hmem with
      | head => exact absurd hhd hne
      | tail _ hmem2 => simpa using ih hmem2
    · simp [hhd]

/-- C1: when the bundle attribute is present (truthy), the keyword
arguments convert cleanly, a fingerprint is declared, and the engine
reports at least one fingerprint whose lowercase form differs from the
declared one, construction raises the fingerprint-mismatch
`KeybasePublicKeyError` and never produces a key record. -/
theorem C1_fingerprint_mismatch_fatal (env : GpgEnv)
    (kwargs : List (String × Json)) (data : List (String × PkVal))
    (bv : PkVal) (kf : String) (fp : String)
    (hconv : convertData kwargs = .ok data)
    (hb : data.lookup "bundle" = some bv)
    (ht : pkValTruthy (some bv) = true)
    (hkf : data.lookup "key_fingerprint" = some (.j (.str kf)))
    (hfp : fp ∈ env.importFingerprints bv)
    (hne : pyLower fp ≠ pyLower kf) :
    mkKeybasePublicKey env kwargs =
      .error (.publicKeyError fingerprintMismatchMsg) ∧
    ∀ pk, mkKeybasePublicKey env kwargs ≠ .ok pk := by
  have hkfe : keyFingerprintOf data = .ok (pyLower kf) := by
    unfold keyFingerprintOf
    rw [hkf]
  have hmain : mkKeybasePublicKey env kwargs =
      .error (.publicKeyError fingerprintMismatchMsg) := by
    unfold mkKeybasePublicKey
    rw [hconv]
    simp only [hb, ht, if_true, hkfe]
    rw [checkFprints_mismatch (pyLower kf) (env.importFingerprints bv) fp hfp hne]
  exact ⟨hmain, fun pk hok => by rw [hmain] at hok; exact Except.noConfusion hok⟩

/-- An engine environment whose import result reports a fingerprint that
matches no declared fingerprint. -/
def mismatchGpgEnv : GpgEnv :=
  ⟨fun c =>
    if c = "ciphername" then ["AES256"]
    else if c = "digestname" then ["SHA512"]
    else [],
   fun _ => ["DEADBEEFDEADBEEFDEADBEEFDEADBEEFDEADBEEF"]⟩

/-- C1 witness: a concrete construction with a mismatching engine
fingerprint raises the security error. -/
theorem C1_fingerprint_mismatch_fatal_witness :
    mkKeybasePublicKey mismatchGpgEnv
      [("bundle", .str "PGP BLOCK"), ("key_fingerprint", .str "AABBCC")] =
      .error (.publicKeyError fingerprintMismatchMsg) ∧
    ∀ pk, mkKeybasePublicKey mismatchGpgEnv
      [("bundle", .str "PGP BLOCK"), ("key_fingerprint", .str "AABBCC")] ≠
      .ok pk :=
  C1_fingerprint_mismatch_fatal mismatchGpgEnv
    [("bundle", .str "PGP BLOCK"), ("key_fingerprint", .str "AABBCC")]
    [("bundle", .j (.str "PGP BLOCK")), ("key_fingerprint", .j (.str "AABBCC"))]
    (.j (.str "PGP BLOCK")) "AABBCC" "DEADBEEFDEADBEEFDEADBEEFDEADBEEFDEADBEEF"
    rfl rfl (by decide) rfl (by decide) (by decide)

/-- C2: when the engine reports an empty fingerprint list for the imported
bundle, construction succeeds whatever the declared fingerprint is (even
when it is absent): the loop checks nothing and no error is raised. -/
theorem C2_empty_import_vacuous (env : GpgEnv)
    (kwargs : List (String × Json)) (data : List (String × PkVal)) (bv : PkVal)
    (hconv : convertData kwargs = .ok data)
    (hb : data.lookup "bundle" = some bv)
    (ht : pkValTruthy (some bv) = true)
    (hfps : env.importFingerprints bv = []) :
    mkKeybasePublicKey env kwargs =
      .ok ⟨data, env.config "ciphername", env.config "digestname",
        ["ZLIB", "BZIP2", "ZIP", "Uncompressed"], some ()⟩ := by
  unfold mkKeybasePublicKey
  rw [hconv]
  simp only [hb, ht, if_true, hfps]
  simp [checkFprints]

/-- C2 witness: a concrete construction with an empty engine fingerprint
list succeeds although no fingerprint is declared at all. -/
theorem C2_empty_import_vacuous_witness :
    mkKeybasePublicKey defaultGpgEnv [("bundle", .str "PGP BLOCK")] =
      .ok ⟨[("bundle", .j (.str "PGP BLOCK"))], ["AES256", "AES"],
        ["SHA512", "SHA256"], ["ZLIB", "BZIP2", "ZIP", "Uncompressed"],
        some ()⟩ :=
  C2_empty_import_vacuous defaultGpgEnv [("bundle", .str "PGP BLOCK")]
    [("bundle", .j (.str "PGP BLOCK"))] (.j (.str "PGP BLOCK"))
    rfl rfl (by decide) rfl

/-- C4: the fingerprint accessor returns the lowercase normalization of
the stored value, so records whose stored fingerprints differ only in
letter case have equal fingerprints and the import integrity comparison
cannot tell them apart. -/
theorem C4_fingerprint_case_insensitive (pk1 pk2 : KeybasePublicKey)
    (s1 s2 : String)
    (h1 : pk1.data.lookup "key_fingerprint" = some (.j (.str s1)))
    (h2 : pk2.data.lookup "key_fingerprint" = some (.j (.str s2)))
    (hcase : pyLower s1 = pyLower s2) :
    pk1.keyFingerprint = .ok (pyLower s1) ∧
    pk2.keyFingerprint = .ok (pyLower s2) ∧
    pk1.keyFingerprint = pk2.keyFingerprint ∧
    (∀ fps, checkFprints pk1.keyFingerprint fps =
      checkFprints pk2.keyFingerprint fps) := by
  have e1 : pk1.keyFingerprint = .ok (pyLower s1) := by
    unfold KeybasePublicKey.keyFingerprint keyFingerprintOf
    rw [h1]
  have e2 : pk2.keyFingerprint = .ok (pyLower s2) := by
    unfold KeybasePublicKey.keyFingerprint keyFingerprintOf
    rw [h2]
  refine ⟨e1, e2, ?_, fun fps => ?_⟩
  · rw [e1, e2, hcase]
  · rw [e1, e2, hcase]

/-- A key record declaring an uppercase fingerprint. -/
def pkUpperW : KeybasePublicKey :=
  ⟨[("key_fingerprint", .j (.str "7CC0CE678C37FC27DA3CE494F56B7A6F0A32A0B9"))],
    ["AES256"], ["SHA512"], ["ZLIB", "BZIP2", "ZIP", "Uncompressed"], some ()⟩

/-- The same key record with the fingerprint declared lowercase. -/
def pkLowerW : KeybasePublicKey :=
  ⟨[("key_fingerprint", .j (.str "7cc0ce678c37fc27da3ce494f56b7a6f0a32a0b9"))],
    ["AES256"], ["SHA512"], ["ZLIB", "BZIP2", "ZIP", "Uncompressed"], some ()⟩

/-- C4 witness: the two concrete records agree on the fingerprint accessor
and on the integrity comparison of a concrete import report. -/
theorem C4_fingerprint_case_insensitive_witness :
    pkUpperW.keyFingerprint =
      .ok "7cc0ce678c37fc27da3ce494f56b7a6f0a32a0b9" ∧
    pkUpperW.keyFingerprint = pkLowerW.keyFingerprint ∧
    checkFprints pkUpperW.keyFingerprint
        ["7CC0CE678C37FC27DA3CE494F56B7A6F0A32A0B9"] =
      checkFprints pkLowerW.keyFingerprint
        ["7CC0CE678C37FC27DA3CE494F56B7A6F0A32A0B9"] :=
  ⟨(C4_fingerprint_case_insensitive pkUpperW pkLowerW
      "7CC0CE678C37FC27DA3CE494F56B7A6F0A32A0B9"
      "7cc0ce678c37fc27da3ce494f56b7a6f0a32a0b9" rfl rfl (by decide)).1,
   (C4_fingerprint_case_insensitive pkUpperW pkLowerW
      "7CC0CE678C37FC27DA3CE494F56B7A6F0A32A0B9"
      "7cc0ce678c37fc27da3ce494f56b7a6f0a32a0b9" rfl rfl (by decide)).2.2.1,
   (C4_fingerprint_case_insensitive pkUpperW pkLowerW
      "7CC0CE678C37FC27DA3CE494F56B7A6F0A32A0B9"
      "7cc0ce678c37fc27da3ce494f56b7a6f0a32a0b9" rfl rfl (by decide)).2.2.2
      ["7CC0CE678C37FC27DA3CE494F56B7A6F0A32A0B9"]⟩

/-- Does a supplied algorithm name pass its validation step (skipped and
empty supplies pass, everything else needs membership in the stored
list). -/
def algoPasses (supported : List String) : Option String → Bool
  | none => true
  | some v => if v = "" then true else decide (v ∈ supported)

/-- A passing supply reduces its validation step to its keyword value. -/
theorem algoCheck_pass (kind : String) (supported : List String)
    (a : Option String) (h : algoPasses supported a = true) :
    algoCheck kind supported a =
      .ok (if optStrTruthy a then some (a.getD "") else none) := by
  unfold algoCheck
  rcases a with _ | v
  · simp [optStrTruthy]
  · by_cases hv : v = ""
    · subst hv
      simp [optStrTruthy]
    · have hm : v ∈ supported := by
        unfold algoPasses at h
        simpa [hv] using h
      simp [optStrTruthy, hv, hm]

/-- An unrecognized nonempty supply fails its validation step. -/
theorem algoCheck_fail (kind : String) (supported : List String) (v : String)
    (hne : v ≠ "") (hnot : v ∉ supported) :
    algoCheck kind supported (some v) = .error (.publicKeyEncryptError
      (kind ++ " algorithm " ++ v ++ " unrecognized")) := by
  unfold algoCheck
  simp [optStrTruthy, hne, hnot]

/-- A passing compression supply reduces to its keyword value (ZIP when
skipped). -/
theorem compressCheck_pass (supported : List String) (a : Option String)
    (h : algoPasses supported a = true) :
    compressCheck supported a =
      .ok (if optStrTruthy a then a.getD "" else "ZIP") := by
  unfold compressCheck
  rcases a with _ | v
  · simp [optStrTruthy]
  · by_cases hv : v = ""
    · subst hv
      simp [optStrTruthy]
    · have hm : v ∈ supported := by
        unfold algoPasses at h
        simpa [hv] using h
      simp [optStrTruthy, hv, hm]

/-- An unrecognized nonempty compression supply fails its validation
step. -/
theorem compressCheck_fail (supported : List String) (v : String)
    (hne : v ≠ "") (hnot : v ∉ supported) :
    compressCheck supported (some v) = .error (.publicKeyEncryptError
      ("compression algorithm " ++ v ++ " unrecognized")) := by
  unfold compressCheck
  simp [optStrTruthy, hne, hnot]

/-- A successfully constructed key record stores the engine-reported
cipher and digest lists and the fixed compression list. -/
theorem mk_ok_fields (env : GpgEnv) (kwargs : List (String × Json))
    (pk : KeybasePublicKey) (h : mkKeybasePublicKey env kwargs = .ok pk) :
    pk.cipherAlgos = env.config "ciphername" ∧
    pk.digestAlgos = env.config "digestname" ∧
    pk.compressAlgos = ["ZLIB", "BZIP2", "ZIP", "Uncompressed"] := by
  unfold mkKeybasePublicKey at h
  repeat' split at h
  all_goals try exact Except.noConfusion h
  injection h with h1
  rw [← h1]
  exact ⟨rfl, rfl, rfl⟩

/-- The key record a construction with only a bundle produces under
`defaultGpgEnv`. -/
def pkEncW : KeybasePublicKey :=
  ⟨[("bundle", .j (.str "PGP BLOCK"))], ["AES256", "AES"],
    ["SHA512", "SHA256"], ["ZLIB", "BZIP2", "ZIP", "Uncompressed"], some ()⟩

/-- C9 counterexample: the record construction never queries the engine
for a supported-compression list; `ZIP` is absent from what the engine
reports as supported compression, yet `encrypt` with `compress_algo ZIP`
raises no configuration error and the engine call is made. -/
theorem C9_counterexample :
    mkKeybasePublicKey defaultGpgEnv [("bundle", .str "PGP BLOCK")] =
      .ok pkEncW ∧
    "ZIP" ∉ defaultGpgEnv.config "compressname" ∧
    (pkEncW.encrypt "KEYID" "CIPHERTEXT" "hello" true none none
      (some "ZIP")).engineCall.isSome = true ∧
    (pkEncW.encrypt "KEYID" "CIPHERTEXT" "hello" true none none
      (some "ZIP")).result = .ok (.armored "CIPHERTEXT") :=
  ⟨rfl, by decide, rfl, rfl⟩

/-- C9 (amended): cipher and digest names are validated against the
engine-reported lists stored at construction, compression names against
the fixed list ZLIB BZIP2 ZIP Uncompressed; an unrecognized supplied name
raises `KeybasePublicKeyEncryptError` with the engine never called, and
once every supplied name passes, the engine is called and the
no-output `KeybasePublicKeyEncryptError` is raised exactly when the engine
reports empty output. -/
theorem C9_encrypt_validation (env : GpgEnv) (kwargs : List (String × Json))
    (pk : KeybasePublicKey) (keyid out data : String) (armor : Bool)
    (c d cp : Option String)
    (hpk : mkKeybasePublicKey env kwargs = .ok pk) :
    pk.cipherAlgos = env.config "ciphername" ∧
    pk.digestAlgos = env.config "digestname" ∧
    pk.compressAlgos = ["ZLIB", "BZIP2", "ZIP", "Uncompressed"] ∧
    (∀ cv, c = some cv → cv ≠ "" → cv ∉ pk.cipherAlgos →
      pk.encrypt keyid out data armor c d cp =
        ⟨.error (.publicKeyEncryptError
          ("cipher algorithm " ++ cv ++ " unrecognized")), none⟩) ∧
    (∀ dv, algoPasses pk.cipherAlgos c = true → d = some dv → dv ≠ "" →
      dv ∉ pk.digestAlgos →
      pk.encrypt keyid out data armor c d cp =
        ⟨.error (.publicKeyEncryptError
          ("digest algorithm " ++ dv ++ " unrecognized")), none⟩) ∧
    (∀ xv, algoPasses pk.cipherAlgos c = true →
      algoPasses pk.digestAlgos d = true → cp = some xv → xv ≠ "" →
      xv ∉ pk.compressAlgos →
      pk.encrypt keyid out data armor c d cp =
        ⟨.error (.publicKeyEncryptError
          ("compression algorithm " ++ xv ++ " unrecognized")), none⟩) ∧
    (algoPasses pk.cipherAlgos c = true → algoPasses pk.digestAlgos d = true →
      algoPasses pk.compressAlgos cp = true →
      (pk.encrypt keyid out data armor c d cp).engineCall.isSome = true ∧
      ((pk.encrypt keyid out data armor c d cp).result =
        .error (.publicKeyEncryptError "unable to encrypt data") ↔
        out = "")) := by
  obtain ⟨hc, hd, hcp⟩ := mk_ok_fields env kwargs pk hpk
  refine ⟨hc, hd, hcp, ?_, ?_, ?_, ?_⟩
  · intro cv hceq hne hnot
    subst hceq
    unfold KeybasePublicKey.encrypt checkAlgos
    rw [algoCheck_fail "cipher" pk.cipherAlgos cv hne hnot]
    rfl
  · intro dv hcpass hdeq hne hnot
    subst hdeq
    unfold KeybasePublicKey.encrypt checkAlgos
    rw [algoCheck_pass "cipher" pk.cipherAlgos c hcpass,
      algoCheck_fail "digest" pk.digestAlgos dv hne hnot]
    rfl
  · intro xv hcpass hdpass hcpeq hne hnot
    subst hcpeq
    unfold KeybasePublicKey.encrypt checkAlgos
    rw [algoCheck_pass "cipher" pk.cipherAlgos c hcpass,
      algoCheck_pass "digest" pk.digestAlgos d hdpass,
      compressCheck_fail pk.compressAlgos xv hne hnot]
  · intro hcpass hdpass hcppass
    unfold KeybasePublicKey.encrypt checkAlgos
    rw [algoCheck_pass "cipher" pk.cipherAlgos c hcpass,
      algoCheck_pass "digest" pk.digestAlgos d hdpass,
      compressCheck_pass pk.compressAlgos cp hcppass]
    by_cases hout : out = ""
    · subst hout
      simp
    · simp [hout]

/-- C9 witness: a concrete unrecognized cipher name fails before the
engine call, and a concrete engine call with no output raises the
encryption error. -/
theorem C9_encrypt_validation_witness :
    pkEncW.encrypt "KEYID" "OUT" "hello" true (some "3DES") none none =
      ⟨.error (.publicKeyEncryptError "cipher algorithm 3DES unrecognized"),
        none⟩ ∧
    (pkEncW.encrypt "KEYID" "" "hello" true none none none).engineCall.isSome
      = true ∧
    (pkEncW.encrypt "KEYID" "" "hello" true none none none).result =
      .error (.publicKeyEncryptError "unable to encrypt data") :=
  ⟨(C9_encrypt_validation defaultGpgEnv [("bundle", .str "PGP BLOCK")] pkEncW
      "KEYID" "OUT" "hello" true (some "3DES") none none rfl).2.2.2.1 "3DES"
      rfl (by decide) (by decide),
   ((C9_encrypt_validation defaultGpgEnv [("bundle", .str "PGP BLOCK")] pkEncW
      "KEYID" "" "hello" true none none none rfl).2.2.2.2.2.2
      (by decide) (by decide) (by decide)).1,
   ((C9_encrypt_validation defaultGpgEnv [("bundle", .str "PGP BLOCK")] pkEncW
      "KEYID" "" "hello" true none none none rfl).2.2.2.2.2.2
      (by decide) (by decide) (by decide)).2.mpr rfl⟩

/-- One `_get_salt` call either leaves the admin state exactly as it was
or returns the login session token. -/
theorem getSalt_cases (st : AdminState) (resp : Json) :
    (getSalt st resp).newState = st ∨
    ∃ v, (getSalt st resp).result = .ok v := by
  unfold getSalt
  split
  · exact Or.inl rfl
  · cases hb : getSaltBody st resp with
    | error e => exact Or.inl rfl
    | ok p =>
      obtain ⟨st2, ls⟩ := p
      exact Or.inr ⟨ls, rfl⟩

/-- A `_get_salt` call that raises leaves the admin fields untouched. -/
theorem getSalt_raise_atomic (st : AdminState) (resp : Json) (e : KbError)
    (h : (getSalt st resp).result = .error e) :
    (getSalt st resp).newState = st := by
  rcases getSalt_cases st resp with heq | ⟨v, hok⟩
  · exact heq
  · rw [hok] at h
    exact Except.noConfusion h

/-- Crypto collaborators used by concrete login runs: hex and base64
decoding are identities, the password hash concatenates, the MAC digest is
a fixed hex string. -/
def cryptoEnvW : CryptoEnv :=
  ⟨fun s => some s, fun s => some s, fun p s => p ++ s, fun _ _ => "abc123"⟩

/-- A freshly constructed bound admin instance. -/
def boundAdminW : AdminState := ⟨boundStateW, none, none, none⟩

/-- A well-formed round-1 response. -/
def saltRespW : Json :=
  .obj [("salt", .str "5838c199"), ("login_session", .str "TOKEN")]

/-- A well-formed round-2 response carrying a session. -/
def loginRespW : Json :=
  .obj [("session", .str "SESSIONCOOKIE"), ("uid", .str "u1")]

/-- C3 counterexample: on a concrete bound instance, `login` does submit
the (identifier, MAC digest, login session) triple to the login endpoint
and does store the session cookie from the response, contradicting the
claim that round 2 is not completed. -/
theorem C3_counterexample :
    (login cryptoEnvW boundAdminW saltRespW loginRespW "secret").postedUrl =
      some "https://keybase.io/_/api/1.0/login.json" ∧
    (login cryptoEnvW boundAdminW saltRespW loginRespW "secret").postedPayload
      = some ⟨some "irc", "abc123", .str "TOKEN"⟩ ∧
    (login cryptoEnvW boundAdminW saltRespW loginRespW
      "secret").newState.sessionCookie = some (.str "SESSIONCOOKIE") ∧
    (login cryptoEnvW boundAdminW saltRespW loginRespW "secret").result =
      .ok true :=
  ⟨rfl, rfl, rfl, rfl⟩

/-- C3 (amended): on a bound instance whose round-1 response is
well-formed and whose crypto inputs decode, `login` posts the
(identifier, hex HMAC of the decoded session token under the sliced
scrypt hash, login session) triple to the login endpoint and, when the
response carries a truthy session, stores it and returns True. -/
theorem C3_login_completes_round2 (cenv : CryptoEnv) (st st1 : AdminState)
    (saltResp loginResp : Json) (pass : String) (ls sess : Json)
    (svs lss saltBytes sessBytes : String)
    (hb : isBound st.base = true)
    (hsalt : getSalt st saltResp = ⟨st1, .ok ls, true⟩)
    (hsv : st1.salt = some (.str svs))
    (hux : cenv.unhexlify svs = some saltBytes)
    (hlss : ls = .str lss)
    (hb64 : cenv.b64decode lss = some sessBytes)
    (hsess : jIndex loginResp "session" = .ok sess)
    (htru : jTruthy sess = true) :
    login cenv st saltResp loginResp pass =
      ⟨{ st1 with
          userObjectAdmin := some loginResp
          sessionCookie := some sess }, .ok true,
        some "https://keybase.io/_/api/1.0/login.json",
        some ⟨st1.base.username,
          cenv.hmacHex (pySlice (cenv.scryptHash pass saltBytes) 192 224)
            sessBytes, ls⟩⟩ := by
  subst hlss
  have hurl : buildUrl "login.json" =
      .ok "https://keybase.io/_/api/1.0/login.json" := by decide
  have hund : unhexSalt cenv st1.salt = .ok saltBytes := by
    rw [hsv]
    unfold unhexSalt
    simp [hux]
  have hbd : b64Session cenv (.str lss) = .ok sessBytes := by
    unfold b64Session
    simp [hb64]
  unfold login
  rw [hsalt]
  simp [hb, hund, hbd, hurl, hsess, htru]

/-- C3 witness: the amended round-2 behavior on the concrete run. -/
theorem C3_login_completes_round2_witness :
    login cryptoEnvW boundAdminW saltRespW loginRespW "secret" =
      ⟨⟨boundStateW, some (.str "5838c199"), some (.str "SESSIONCOOKIE"),
          some loginRespW⟩, .ok true,
        some "https://keybase.io/_/api/1.0/login.json",
        some ⟨some "irc", "abc123", .str "TOKEN"⟩⟩ :=
  C3_login_completes_round2 cryptoEnvW boundAdminW
    ⟨boundStateW, some (.str "5838c199"), none, none⟩ saltRespW loginRespW
    "secret" (.str "TOKEN") (.str "SESSIONCOOKIE") "5838c199" "TOKEN"
    "5838c199" "TOKEN" (by decide) rfl rfl rfl rfl rfl rfl (by decide)

/-- A round-2 response with no session field. -/
def loginRespNoSession : Json := .obj [("status", .obj [("name", .str "OK")])]

/-- C8 counterexample: a concrete `login` whose round-2 response lacks the
session field raises, yet afterwards the instance holds the round-1 salt
and the full round-2 response in its user-object field: the prior state is
not restored. -/
theorem C8_counterexample :
    (login cryptoEnvW boundAdminW saltRespW loginRespNoSession
      "secret").result = .error (.keyError "session") ∧
    boundAdminW.salt = none ∧
    boundAdminW.userObjectAdmin = none ∧
    (login cryptoEnvW boundAdminW saltRespW loginRespNoSession
      "secret").newState.salt = some (.str "5838c199") ∧
    (login cryptoEnvW boundAdminW saltRespW loginRespNoSession
      "secret").newState.userObjectAdmin = some loginRespNoSession ∧
    (login cryptoEnvW boundAdminW saltRespW loginRespNoSession
      "secret").newState ≠ boundAdminW := by
  refine ⟨rfl, rfl, rfl, rfl, rfl, ?_⟩
  intro h
  have ha : (login cryptoEnvW boundAdminW saltRespW loginRespNoSession
      "secret").newState.userObjectAdmin = some loginRespNoSession := rfl
  rw [h] at ha
  exact Option.noConfusion ha

/-- C8 (amended): `__lookup` and `_get_salt` are atomic on failure, but
`login` is not: when the round-2 response lacks the session field the call
raises a KeyError while the round-1 salt stays stored and the full
response is left in the admin user-object field. -/
theorem C8_failure_atomicity (cenv : CryptoEnv) (st st1 : AdminState)
    (saltResp : Json) (lfl : List (String × Json)) (pass : String)
    (ls : Json) (svs lss saltBytes sessBytes : String)
    (hb : isBound st.base = true)
    (hsalt : getSalt st saltResp = ⟨st1, .ok ls, true⟩)
    (hsv : st1.salt = some (.str svs))
    (hux : cenv.unhexlify svs = some saltBytes)
    (hlss : ls = .str lss)
    (hb64 : cenv.b64decode lss = some sessBytes)
    (hnosess : lfl.lookup "session" = none) :
    (∀ st2 u r e, (lookupStep st2 u r).error = some e →
      (lookupStep st2 u r).newState = st2) ∧
    (∀ st2 r e, (getSalt st2 r).result = .error e →
      (getSalt st2 r).newState = st2) ∧
    (login cenv st saltResp (.obj lfl) pass).result =
      .error (.keyError "session") ∧
    (login cenv st saltResp (.obj lfl) pass).newState =
      { st1 with userObjectAdmin := some (.obj lfl) } := by
  subst hlss
  have hurl2 : buildUrl "login.json" =
      .ok "https://keybase.io/_/api/1.0/login.json" := by decide
  have hund : unhexSalt cenv st1.salt = .ok saltBytes := by
    rw [hsv]
    unfold unhexSalt
    simp [hux]
  have hbd : b64Session cenv (.str lss) = .ok sessBytes := by
    unfold b64Session
    simp [hb64]
  have hj : jIndex (.obj lfl) "session" = .error (.keyError "session") := by
    unfold jIndex
    simp [hnosess]
  have hrun : login cenv st saltResp (.obj lfl) pass =
      ⟨{ st1 with userObjectAdmin := some (.obj lfl) },
        .error (.keyError "session"),
        some "https://keybase.io/_/api/1.0/login.json",
        some ⟨st1.base.username,
          cenv.hmacHex (pySlice (cenv.scryptHash pass saltBytes) 192 224)
            sessBytes, .str lss⟩⟩ := by
    unfold login
    rw [hsalt]
    simp [hb, hund, hbd, hurl2, hj]
  exact ⟨fun st2 u r e he => lookupStep_raise_atomic st2 u r e he,
    fun st2 r e he => getSalt_raise_atomic st2 r e he,
    by rw [hrun], by rw [hrun]⟩

/-- C8 witness: the amended statement on the concrete non-atomic run. -/
theorem C8_failure_atomicity_witness :
    (login cryptoEnvW boundAdminW saltRespW
      (.obj [("status", .obj [("name", .str "OK")])]) "secret").result =
      .error (.keyError "session") ∧
    (login cryptoEnvW boundAdminW saltRespW
      (.obj [("status", .obj [("name", .str "OK")])]) "secret").newState =
      ⟨boundStateW, some (.str "5838c199"), none,
        some (.obj [("status", .obj [("name", .str "OK")])])⟩ :=
  ⟨(C8_failure_atomicity cryptoEnvW boundAdminW
      ⟨boundStateW, some (.str "5838c199"), none, none⟩ saltRespW
      [("status", .obj [("name", .str "OK")])] "secret" (.str "TOKEN")
      "5838c199" "TOKEN" "5838c199" "TOKEN"
      (by decide) rfl rfl rfl rfl rfl rfl).2.2.1,
   (C8_failure_atomicity cryptoEnvW boundAdminW
      ⟨boundStateW, some (.str "5838c199"), none, none⟩ saltRespW
      [("status", .obj [("name", .str "OK")])] "secret" (.str "TOKEN")
      "5838c199" "TOKEN" "5838c199" "TOKEN"
      (by decide) rfl rfl rfl rfl rfl rfl).2.2.2⟩

/-- A host with one `PATH` entry where only the `PATHEXT`-suffixed variant
of the executable exists. -/
def osEnvSuffixed : OsEnv :=
  ⟨some ".EXE", some "/usr/bin", ':',
   fun p => p == "/usr/bin/gpg2.EXE", fun p => p⟩

/-- A host where both `gpg2` and `gpg` exist on the path. -/
def osEnvBoth : OsEnv :=
  ⟨none, some "/usr/bin", ':',
   fun p => p == "/usr/bin/gpg2" || p == "/usr/bin/gpg", fun p => p⟩

/-- A host with no matching executable at all. -/
def osEnvBare : OsEnv :=
  ⟨none, some "/usr/bin", ':', fun _ => false, fun p => p⟩

/-- C10: `gpg()` prefers `gpg2` over `gpg` and returns None when nothing
matches, but `_which` mishandles `PATHEXT` suffixes: when only the
suffixed file `gpg2.EXE` is accessible it returns the suffix-less path,
which is not the path of any accessible file — contradicting its own
docstring (a list of the full paths to files found). -/
theorem C10_which_pathext_bug :
    which osEnvSuffixed "gpg2" = ["/usr/bin/gpg2"] ∧
    osEnvSuffixed.access "/usr/bin/gpg2" = false ∧
    osEnvSuffixed.access "/usr/bin/gpg2.EXE" = true ∧
    gpg osEnvSuffixed none = some "/usr/bin/gpg2" ∧
    pyEndsWith "/usr/bin/gpg2" ".EXE" = false ∧
    gpg osEnvBoth none = some "/usr/bin/gpg2" ∧
    gpg osEnvBare none = none := by decide
